import Mathlib

set_option autoImplicit false

/-
Shallow embedding of the mailgun-sdk message module (src/message.rs, src/client.rs,
src/error.rs, src/lib.rs): the message data model, the builder, the two wire
encoders (URL-encoded form and multipart form), and the send dispatcher with its
response classification.

Strings from the Rust source are kept verbatim. HashMap fields are modelled as
association lists (iteration order is the list order; the source iterates a
HashMap in unspecified order, which the spec declares semantically
insignificant). The external collaborators (serde_json, the JSON parser inside
serde_json::from_str, and the HTTP transport) are passed in as function
parameters.
-/

namespace MailgunSdk

/-- Email address, from struct Email in src/message.rs (fields name, address). -/
structure Email where
  name : Option String
  address : String
deriving DecidableEq

/-- Vec join with a separator, the semantics of Rust Vec::join used by
EmailList::to_string and the AttachmentList Serialize impl. -/
def joinSep (sep : String) : List String → String
  | [] => ""
  | [s] => s
  | s :: rest => s ++ sep ++ joinSep sep rest

/-- Email::to_string: with a name, "name <address>"; otherwise just the address. -/
def Email.toString (e : Email) : String :=
  match e.name with
  | some n => n ++ " <" ++ e.address ++ ">"
  | none => e.address

/-- Wrapper around a list of emails, from struct EmailList in src/message.rs. -/
structure EmailList where
  emails : List Email
deriving DecidableEq

/-- EmailList::to_string: the member renders joined by a comma. -/
def EmailList.toString (l : EmailList) : String :=
  joinSep "," (l.emails.map Email.toString)

/-- File attachment, from struct Attachment in src/message.rs (fields name, file_path). -/
structure Attachment where
  name : String
  file_path : String
deriving DecidableEq

/-- Attachment::to_string: the format "@name:file_path". -/
def Attachment.toString (a : Attachment) : String :=
  "@" ++ a.name ++ ":" ++ a.file_path

/-- Wrapper around a list of attachments, from struct AttachmentList in src/message.rs. -/
structure AttachmentList where
  attachments : List Attachment
deriving DecidableEq

/-- Serialize impl for AttachmentList: the member renders joined by a comma. -/
def AttachmentList.toString (l : AttachmentList) : String :=
  joinSep "," (l.attachments.map Attachment.toString)

/-- Custom data object sent with the message, from type MessageJsonData in
src/message.rs; a HashMap of string keys and values, modelled as an association
list. -/
abbrev MessageJsonData := List (String × String)

/-- Message struct from src/message.rs lines 43-70. The Rust field named from is
called from_ and the field named to is called to_ because from and to are reserved words in Lean. -/
structure Message where
  from_ : Email
  to_ : EmailList
  cc : Option EmailList
  bcc : Option EmailList
  subject : String
  text : Option String
  html : Option String
  amp_html : Option String
  attachment : Option AttachmentList
  inline : Option AttachmentList
  template : Option String
  template_version : Option String
  template_text : Option Bool
  option_tag : Option String
  option_dkim : Option String
  option_deliverytime : Option String
  option_testmode : Option String
  option_tracking : Option String
  option_tracking_clicks : Option String
  option_tracking_opens : Option Bool
  option_require_tls : Option Bool
  option_skip_verification : Option Bool
  custom_headers : Option MessageJsonData
  custom_data : Option MessageJsonData
  recipient_variables : Option MessageJsonData

/-- Message::new: all optional fields start unset. -/
def Message.new (subject : String) (from_ : Email) (to_ : List Email) : Message :=
  { from_ := from_
    to_ := EmailList.mk to_
    cc := none
    bcc := none
    subject := subject
    text := none
    html := none
    amp_html := none
    attachment := none
    inline := none
    template := none
    template_version := none
    template_text := none
    option_tag := none
    option_dkim := none
    option_deliverytime := none
    option_testmode := none
    option_tracking := none
    option_tracking_clicks := none
    option_tracking_opens := none
    option_require_tls := none
    option_skip_verification := none
    custom_headers := none
    custom_data := none
    recipient_variables := none }

/-- Response from MailGun after sending a message, from enum SendMessageResponse
in src/message.rs: Success holds message and id, Failure holds message only. -/
inductive SendMessageResponse where
  | Success (message : String) (id : String)
  | Failure (message : String)
deriving DecidableEq

/-- Error taxonomy from src/error.rs. Wrapped foreign error values
(serde_json::Error, io::Error, LazyIoError, reqwest messages) are modelled as
strings. -/
inductive Error where
  | ApiForbiddenError
  | MessageError (e : String)
  | MessageBodyError (e : String)
  | MessageParamsError (e : String)
  | SendMessageError (r : SendMessageResponse)
  | Unknown (e : String)
deriving DecidableEq

/-- One part of a multipart form body: either a text part (add_text) or a file
part (add_file, whose content is read from the file path by the multipart
library). -/
inductive Part where
  | text (name : String) (value : String)
  | file (name : String) (file_path : String)
deriving DecidableEq

/-- Field name of a multipart part. -/
def Part.partName : Part → String
  | Part.text n _ => n
  | Part.file n _ => n

/-- List of parts produced for an optional text field: one add_text call when
set, nothing when unset. -/
def optText (name : String) (v : Option String) : List Part :=
  match v with
  | some s => [Part.text name s]
  | none => []

/-- Message::as_form from src/message.rs lines 251-383, which builds the
multipart body. The parts appear in the exact order of the add_text/add_file
calls in the source; note the source has no branch adding an html part, and the
attachment and inline file parts are added between the amp-html and template
text parts. serde_json::to_string for recipient_variables is the parameter sj;
on its failure the whole encoding aborts with Error.MessageError as in the
source. -/
def Message.as_form (m : Message) (sj : MessageJsonData → Except String String) :
    Except Error (List Part) :=
  let parts :=
    [Part.text "from" m.from_.toString, Part.text "to" m.to_.toString]
    ++ (match m.cc with
        | some cc => [Part.text "cc" cc.toString]
        | none => [])
    ++ (match m.bcc with
        | some bcc => [Part.text "bcc" bcc.toString]
        | none => [])
    ++ [Part.text "subject" m.subject]
    ++ optText "text" m.text
    ++ optText "amp-html" m.amp_html
    ++ (match m.attachment with
        | some l => l.attachments.map (fun a => Part.file a.name a.file_path)
        | none => [])
    ++ (match m.inline with
        | some l => l.attachments.map (fun a => Part.file a.name a.file_path)
        | none => [])
    ++ optText "template" m.template
    ++ optText "t:version" m.template_version
    ++ (match m.template_text with
        | some true => [Part.text "t:text" "yes"]
        | _ => [])
    ++ optText "o:tag" m.option_tag
    ++ optText "o:dkim" m.option_dkim
    ++ optText "o:deliverytime" m.option_deliverytime
    ++ optText "o:testmode" m.option_testmode
    ++ optText "o:tracking" m.option_tracking
    ++ optText "o:tracking-clicks" m.option_tracking_clicks
    ++ (match m.option_tracking_opens with
        | some b => [Part.text "o:tracking-opens" (if b then "yes" else "no")]
        | none => [])
    ++ (match m.option_require_tls with
        | some b => [Part.text "o:require-tls" (if b then "yes" else "no")]
        | none => [])
    ++ (match m.option_skip_verification with
        | some b => [Part.text "o:skip-verification" (if b then "yes" else "no")]
        | none => [])
    ++ (match m.custom_headers with
        | some hs => hs.map (fun kv => Part.text ("h:" ++ kv.1) kv.2)
        | none => [])
    ++ (match m.custom_data with
        | some ds => ds.map (fun kv => Part.text ("v:" ++ kv.1) kv.2)
        | none => [])
  match m.recipient_variables with
  | none => Except.ok parts
  | some rv =>
      match sj rv with
      | Except.ok s => Except.ok (parts ++ [Part.text "recipient-variables" s])
      | Except.error e => Except.error (Error.MessageError e)

/-- List of pairs produced for an optional field by the URL-encoded serializer:
one pair when set, nothing when unset (serde_urlencoded skips None values). -/
def optPair (name : String) (v : Option String) : List (String × String) :=
  match v with
  | some s => [(name, s)]
  | none => []

/-- How serde_urlencoded renders a bool value. -/
def serdeBool (b : Bool) : String :=
  if b then "true" else "false"

/-- URL-encoded serialization of a Message as performed by request.form of
src/message.rs line 807: the derive(Serialize) on struct Message (lines 43-70)
fed to the serde_urlencoded serializer. The struct carries no serde rename or
skip attributes, so each pair uses the Rust field name, fields are emitted in
declaration order, None fields are skipped, bool values render as true or
false, and the Email, EmailList and AttachmentList values use their custom
string Serialize impls. The three HashMap-valued fields are nested containers,
which the URL-encoded serializer does not support: when any of them is set the
whole serialization fails (the error string stands for the serde_urlencoded
unsupported-value error). The pairs are the name-value list prior to percent
encoding. -/
def message_urlencoded (m : Message) : Except String (List (String × String)) :=
  if m.custom_headers.isSome || m.custom_data.isSome || m.recipient_variables.isSome then
    Except.error "unsupported value"
  else
    Except.ok
      ([("from", m.from_.toString), ("to", m.to_.toString)]
      ++ optPair "cc" (m.cc.map EmailList.toString)
      ++ optPair "bcc" (m.bcc.map EmailList.toString)
      ++ [("subject", m.subject)]
      ++ optPair "text" m.text
      ++ optPair "html" m.html
      ++ optPair "amp_html" m.amp_html
      ++ optPair "attachment" (m.attachment.map AttachmentList.toString)
      ++ optPair "inline" (m.inline.map AttachmentList.toString)
      ++ optPair "template" m.template
      ++ optPair "template_version" m.template_version
      ++ optPair "template_text" (m.template_text.map serdeBool)
      ++ optPair "option_tag" m.option_tag
      ++ optPair "option_dkim" m.option_dkim
      ++ optPair "option_deliverytime" m.option_deliverytime
      ++ optPair "option_testmode" m.option_testmode
      ++ optPair "option_tracking" m.option_tracking
      ++ optPair "option_tracking_clicks" m.option_tracking_clicks
      ++ optPair "option_tracking_opens" (m.option_tracking_opens.map serdeBool)
      ++ optPair "option_require_tls" (m.option_require_tls.map serdeBool)
      ++ optPair "option_skip_verification" (m.option_skip_verification.map serdeBool))

/-- Field names of a URL-encoded serialization result (empty on failure). -/
def pairNames (r : Except String (List (String × String))) : List String :=
  match r with
  | Except.ok ps => ps.map Prod.fst
  | Except.error _ => []

/-
MessageBuilder from src/message.rs lines 389-607. The builder wraps a single
Message and get_message exposes it, so the builder state is modelled as the
Message itself; each setter below is the effect of one builder method on that
underlying Message.
-/

namespace MessageBuilder

/-- Setter for the from field. -/
def from_ (m : Message) (f : Email) : Message :=
  { m with from_ := f }

/-- Setter for the to field. -/
def to_ (m : Message) (t : List Email) : Message :=
  { m with to_ := EmailList.mk t }

/-- Setter for the cc field. -/
def cc (m : Message) (v : Option (List Email)) : Message :=
  match v with
  | some l => { m with cc := some (EmailList.mk l) }
  | none => { m with cc := none }

/-- Setter for the bcc field. -/
def bcc (m : Message) (v : Option (List Email)) : Message :=
  match v with
  | some l => { m with bcc := some (EmailList.mk l) }
  | none => { m with bcc := none }

/-- Setter for the subject field. -/
def subject (m : Message) (s : String) : Message :=
  { m with subject := s }

/-- Setter for the text field. -/
def text (m : Message) (v : Option String) : Message :=
  { m with text := v }

/-- Setter for the html field. -/
def html (m : Message) (v : Option String) : Message :=
  { m with html := v }

/-- Setter for the amp_html field. -/
def amp_html (m : Message) (v : Option String) : Message :=
  { m with amp_html := v }

/-- Setter for the attachment field: inserts an empty list when the field is
unset, then appends, as in the source. -/
def attachment (m : Message) (a : Attachment) : Message :=
  let m1 := if m.attachment.isNone then { m with attachment := some (AttachmentList.mk []) } else m
  match m1.attachment with
  | some l => { m1 with attachment := some (AttachmentList.mk (l.attachments ++ [a])) }
  | none => m1

/-- Setter for the inline field. -/
def inline (m : Message) (v : Option (List Attachment)) : Message :=
  match v with
  | some l => { m with inline := some (AttachmentList.mk l) }
  | none => { m with inline := none }

/-- Setter for the template field. -/
def template (m : Message) (v : Option String) : Message :=
  { m with template := v }

/-- Setter for the template_version field. -/
def template_version (m : Message) (v : Option String) : Message :=
  { m with template_version := v }

/-- Setter for the template_text field. -/
def template_text (m : Message) (v : Option Bool) : Message :=
  { m with template_text := v }

/-- Setter for the option_tag field. -/
def option_tag (m : Message) (v : Option String) : Message :=
  { m with option_tag := v }

/-- Setter for the option_dkim field. -/
def option_dkim (m : Message) (v : Option String) : Message :=
  { m with option_dkim := v }

/-- Setter for the option_deliverytime field. -/
def option_deliverytime (m : Message) (v : Option String) : Message :=
  { m with option_deliverytime := v }

/-- Setter for the option_testmode field. -/
def option_testmode (m : Message) (v : Option String) : Message :=
  { m with option_testmode := v }

/-- Setter for the option_tracking field. -/
def option_tracking (m : Message) (v : Option String) : Message :=
  { m with option_tracking := v }

/-- Setter for the option_tracking_clicks field. -/
def option_tracking_clicks (m : Message) (v : Option String) : Message :=
  { m with option_tracking_clicks := v }

/-- Setter for the option_tracking_opens field. -/
def option_tracking_opens (m : Message) (v : Option Bool) : Message :=
  { m with option_tracking_opens := v }

/-- Setter for the option_require_tls field. -/
def option_require_tls (m : Message) (v : Option Bool) : Message :=
  { m with option_require_tls := v }

/-- Setter for the option_skip_verification field. -/
def option_skip_verification (m : Message) (v : Option Bool) : Message :=
  { m with option_skip_verification := v }

/-- Setter for the custom_headers field. -/
def custom_headers (m : Message) (v : Option MessageJsonData) : Message :=
  { m with custom_headers := v }

/-- Setter for the custom_data field. -/
def custom_data (m : Message) (v : Option MessageJsonData) : Message :=
  { m with custom_data := v }

/-- Setter for the recipient_variables field. -/
def recipient_variables (m : Message) (v : Option MessageJsonData) : Message :=
  { m with recipient_variables := v }

end MessageBuilder

/-- Names for the 25 fields of the Message struct, used to state frame
properties of the builder setters. -/
inductive MessageField where
  | from_ | to_ | cc | bcc | subject | text | html | amp_html | attachment | inline
  | template | template_version | template_text | option_tag | option_dkim
  | option_deliverytime | option_testmode | option_tracking | option_tracking_clicks
  | option_tracking_opens | option_require_tls | option_skip_verification
  | custom_headers | custom_data | recipient_variables
deriving DecidableEq

/-- Overwrite one field of a Message with a fixed value, forgetting its
content. Two messages agree on every field other than f exactly when mask f
sends them to the same value. -/
def Message.mask (f : MessageField) (m : Message) : Message :=
  match f with
  | MessageField.from_ => { m with from_ := Email.mk none "" }
  | MessageField.to_ => { m with to_ := EmailList.mk [] }
  | MessageField.cc => { m with cc := none }
  | MessageField.bcc => { m with bcc := none }
  | MessageField.subject => { m with subject := "" }
  | MessageField.text => { m with text := none }
  | MessageField.html => { m with html := none }
  | MessageField.amp_html => { m with amp_html := none }
  | MessageField.attachment => { m with attachment := none }
  | MessageField.inline => { m with inline := none }
  | MessageField.template => { m with template := none }
  | MessageField.template_version => { m with template_version := none }
  | MessageField.template_text => { m with template_text := none }
  | MessageField.option_tag => { m with option_tag := none }
  | MessageField.option_dkim => { m with option_dkim := none }
  | MessageField.option_deliverytime => { m with option_deliverytime := none }
  | MessageField.option_testmode => { m with option_testmode := none }
  | MessageField.option_tracking => { m with option_tracking := none }
  | MessageField.option_tracking_clicks => { m with option_tracking_clicks := none }
  | MessageField.option_tracking_opens => { m with option_tracking_opens := none }
  | MessageField.option_require_tls => { m with option_require_tls := none }
  | MessageField.option_skip_verification => { m with option_skip_verification := none }
  | MessageField.custom_headers => { m with custom_headers := none }
  | MessageField.custom_data => { m with custom_data := none }
  | MessageField.recipient_variables => { m with recipient_variables := none }

/-- JSON value, modelling the serde_json data model as far as the response
deserialization needs it. -/
inductive Json where
  | str (s : String)
  | num (n : Int)
  | bool (b : Bool)
  | null
  | arr (elems : List Json)
  | obj (fields : List (String × Json))

/-- String value of a field of a JSON object (none when the value is absent or
not a string; serde takes the first occurrence of a duplicated key). -/
def Json.getStr (j : Json) (key : String) : Option String :=
  match j with
  | Json.obj fields =>
      match fields.lookup key with
      | some (Json.str s) => some s
      | _ => none
  | _ => none

/-- Deserialization of the untagged enum SendMessageResponse (src/message.rs
lines 775-788) from a JSON value: serde tries the Success variant first, which
needs string fields message and id, then the Failure variant, which needs a
string field message; extra fields are ignored. -/
def deserializeSendMessageResponse (j : Json) : Except String SendMessageResponse :=
  match j.getStr "message", j.getStr "id" with
  | some message, some id => Except.ok (SendMessageResponse.Success message id)
  | some message, none => Except.ok (SendMessageResponse.Failure message)
  | none, _ => Except.error "data did not match any variant of untagged enum SendMessageResponse"

/-- Client from src/client.rs: api_key and domain (the reqwest handle is part
of the transport collaborator). -/
structure Client where
  api_key : String
  domain : String

/-- API_BASE_PATH from src/lib.rs. -/
def API_BASE_PATH : String := "https://api.mailgun.net/v3"

/-- Body of the outgoing request: either the URL-encoded serialization stored
by request.form (whose failure, if any, surfaces only when the request is
sent), or the prepared multipart parts. -/
inductive RequestBody where
  | form (pairs : Except String (List (String × String)))
  | multipart (parts : List Part)

/-- Whether a body is a multipart body. -/
def RequestBody.isMultipart : RequestBody → Bool
  | RequestBody.form _ => false
  | RequestBody.multipart _ => true

/-- Error stored in the body by a failed URL-encoded serialization, surfaced at
send time, if any. -/
def RequestBody.buildError : RequestBody → Option String
  | RequestBody.form (Except.error e) => some e
  | _ => none

/-- Outgoing HTTP request: POST to url with basic auth, an optional explicit
Content-Type header (set only on the multipart path; the boundary generated by
the multipart library is abstracted), and a body. -/
structure Request where
  url : String
  auth_user : String
  auth_password : String
  contentTypeHeader : Option String
  body : RequestBody

/-- Request construction steps of send_message_with_client (src/message.rs
lines 800-821): build the target URL, attach basic auth with user "api" and
the API key, then choose the body: the URL-encoded form when both the
attachment and inline fields are unset, otherwise the multipart form from
as_form (whose failure aborts). The prepare and read_to_string steps of the
multipart library are IO of the multipart collaborator and are abstracted;
their failures (MessageParamsError, MessageBodyError) are not modelled. -/
def buildRequest (sj : MessageJsonData → Except String String) (client : Client)
    (m : Message) : Except Error Request :=
  let url := API_BASE_PATH ++ "/" ++ client.domain ++ "/messages"
  if m.attachment.isNone && m.inline.isNone then
    Except.ok
      { url := url
        auth_user := "api"
        auth_password := client.api_key
        contentTypeHeader := none
        body := RequestBody.form (message_urlencoded m) }
  else
    match m.as_form sj with
    | Except.error e => Except.error e
    | Except.ok parts =>
        Except.ok
          { url := url
            auth_user := "api"
            auth_password := client.api_key
            contentTypeHeader := some "multipart/form-data; boundary=<boundary>"
            body := RequestBody.multipart parts }

/-- Outcome of one send call. The source reaches the panicked outcome through
the Rust panic macro; err and ok are the Err and Ok results. -/
inductive SendResult where
  | panicked (msg : String)
  | err (e : Error)
  | ok (r : SendMessageResponse)
deriving DecidableEq

/-- Response classification of send_message_with_client (src/message.rs lines
830-846): a body equal to the literal "Forbidden" is ApiForbiddenError before
any JSON parsing; otherwise the body is parsed as JSON (the textual parser of
serde_json::from_str is the parameter parse; its failure and a shape mismatch
both map to Error.Unknown carrying the parse cause as in the source), a
Success response is returned as is, and a Failure response becomes
SendMessageError. -/
def classifyResponse (parse : String → Option Json) (response_text : String) : SendResult :=
  if response_text = "Forbidden" then
    SendResult.err Error.ApiForbiddenError
  else
    match parse response_text with
    | none => SendResult.err (Error.Unknown "invalid JSON in response body")
    | some j =>
        match deserializeSendMessageResponse j with
        | Except.error e => SendResult.err (Error.Unknown e)
        | Except.ok (SendMessageResponse.Success message id) =>
            SendResult.ok (SendMessageResponse.Success message id)
        | Except.ok (SendMessageResponse.Failure message) =>
            SendResult.err (Error.SendMessageError (SendMessageResponse.Failure message))

/-- send_message_with_client from src/message.rs lines 795-846. First the body
precondition: when both text and html are unset the function panics before
anything else. Then the request is built (buildRequest); a URL-encoded
serialization failure stored in the body surfaces here as Error.Unknown, as
reqwest surfaces a stored builder error when send is called, without issuing a
network call. The transport parameter covers the network exchange and the
reading of the response text; its failure maps to Error.Unknown. Finally the
response text is classified. -/
def send_message_with_client (sj : MessageJsonData → Except String String)
    (parse : String → Option Json) (transport : Request → Except String String)
    (client : Client) (m : Message) : SendResult :=
  if m.text.isNone && m.html.isNone then
    SendResult.panicked "No message body is set"
  else
    match buildRequest sj client m with
    | Except.error e => SendResult.err e
    | Except.ok req =>
        match req.body.buildError with
        | some e => SendResult.err (Error.Unknown e)
        | none =>
            match transport req with
            | Except.error e => SendResult.err (Error.Unknown e)
            | Except.ok response_text => classifyResponse parse response_text

/-
Concrete instances used by the theorems below. baseMessage is the minimal
message of the spec examples: no display names, subject "S", all optional
fields unset.
-/

/-- Example sender address. -/
def fromEx : Email := Email.mk none "a@x.com"

/-- Example recipient list. -/
def toEx : List Email := [Email.mk none "b@x.com"]

/-- Minimal example message. -/
def baseMessage : Message := Message.new "S" fromEx toEx

/-- Total JSON encoder for string maps, standing in for serde_json::to_string
where a concrete always-succeeding serializer is needed. -/
def jsonEncodePairs (ps : MessageJsonData) : Except String String :=
  Except.ok ("\x7b" ++ joinSep ","
    (ps.map (fun kv => "\"" ++ kv.1 ++ "\":\"" ++ kv.2 ++ "\"")) ++ "\x7d")

/-- Claim C9: an Address with a display name renders as "name <address>" and
one without renders as the bare address; a nonempty AddressList renders as the
member renders joined by commas in input order, with the comma-join satisfying
the cons law on nonempty tails. -/
theorem email_rendering (n a : String) (e : Email) (es : List Email) (hne : es ≠ []) :
    (Email.mk (some n) a).toString = n ++ " <" ++ a ++ ">" ∧
    (Email.mk none a).toString = a ∧
    (EmailList.mk es).toString = joinSep "," (es.map Email.toString) ∧
    (EmailList.mk (e :: es)).toString = e.toString ++ "," ++ (EmailList.mk es).toString := by
  refine ⟨rfl, rfl, rfl, ?_⟩
  cases es with
  | nil => exact absurd rfl hne
  | cons b t => rfl

/-- Witness for claim C9 at concrete addresses. -/
theorem email_rendering_witness :
    (Email.mk (some "Name") "t@t.com").toString = "Name" ++ " <" ++ "t@t.com" ++ ">" ∧
    (Email.mk none "t@t.com").toString = "t@t.com" ∧
    (EmailList.mk [Email.mk (some "B") "b@y"]).toString =
      joinSep "," ([Email.mk (some "B") "b@y"].map Email.toString) ∧
    (EmailList.mk (Email.mk none "x@y" :: [Email.mk (some "B") "b@y"])).toString =
      (Email.mk none "x@y").toString ++ "," ++ (EmailList.mk [Email.mk (some "B") "b@y"]).toString :=
  email_rendering "Name" "t@t.com" (Email.mk none "x@y") [Email.mk (some "B") "b@y"]
    (List.cons_ne_nil _ _)

/-- Claim C8: when serde_json fails to serialize the recipient_variables map,
as_form aborts with Error.MessageError wrapping the cause and returns no parts. -/
theorem as_form_recipient_variables_failure (m : Message)
    (sj : MessageJsonData → Except String String) (rv : MessageJsonData) (e : String)
    (hrv : m.recipient_variables = some rv) (hsj : sj rv = Except.error e) :
    m.as_form sj = Except.error (Error.MessageError e) := by
  simp [Message.as_form, hrv, hsj]

/-- Example message with recipient variables set. -/
def msgC8 : Message := { baseMessage with recipient_variables := some [("k", "v")] }

/-- Witness for claim C8 at a concrete message and a failing serializer. -/
theorem as_form_recipient_variables_failure_witness :
    msgC8.as_form (fun _ => Except.error "serialization failed") =
      Except.error (Error.MessageError "serialization failed") :=
  as_form_recipient_variables_failure msgC8 _ [("k", "v")] "serialization failed" rfl rfl

/-- Claim C3: sending a message with both text and html unset panics with the
fixed message before any request is built, and the outcome does not depend on
the transport, so no network call is issued. -/
theorem send_panics_without_body (sj : MessageJsonData → Except String String)
    (parse : String → Option Json) (transport : Request → Except String String)
    (client : Client) (m : Message)
    (htext : m.text = none) (hhtml : m.html = none) :
    send_message_with_client sj parse transport client m =
      SendResult.panicked "No message body is set" ∧
    ∀ transport2, send_message_with_client sj parse transport2 client m =
      send_message_with_client sj parse transport client m := by
  constructor
  · simp [send_message_with_client, htext, hhtml]
  · intro transport2
    simp [send_message_with_client, htext, hhtml]

/-- Witness for claim C3 at a concrete body-less message. -/
theorem send_panics_without_body_witness :
    send_message_with_client (fun _ => Except.ok "") (fun _ => none)
      (fun _ => Except.ok "") (Client.mk "key" "domain") baseMessage =
      SendResult.panicked "No message body is set" :=
  (send_panics_without_body _ _ _ _ _ rfl rfl).1

/-- Claim C10: every builder setter leaves every Message field other than its
own unchanged; masking out the touched field makes the before and after
messages equal, for each of the 25 setters. -/
theorem builder_setters_frame (m : Message) (e : Email) (t : List Email)
    (oel : Option (List Email)) (s : String) (os : Option String) (ob : Option Bool)
    (a : Attachment) (oal : Option (List Attachment)) (om : Option MessageJsonData) :
    Message.mask MessageField.from_ (MessageBuilder.from_ m e) = Message.mask MessageField.from_ m ∧
    Message.mask MessageField.to_ (MessageBuilder.to_ m t) = Message.mask MessageField.to_ m ∧
    Message.mask MessageField.cc (MessageBuilder.cc m oel) = Message.mask MessageField.cc m ∧
    Message.mask MessageField.bcc (MessageBuilder.bcc m oel) = Message.mask MessageField.bcc m ∧
    Message.mask MessageField.subject (MessageBuilder.subject m s) = Message.mask MessageField.subject m ∧
    Message.mask MessageField.text (MessageBuilder.text m os) = Message.mask MessageField.text m ∧
    Message.mask MessageField.html (MessageBuilder.html m os) = Message.mask MessageField.html m ∧
    Message.mask MessageField.amp_html (MessageBuilder.amp_html m os) = Message.mask MessageField.amp_html m ∧
    Message.mask MessageField.attachment (MessageBuilder.attachment m a) = Message.mask MessageField.attachment m ∧
    Message.mask MessageField.inline (MessageBuilder.inline m oal) = Message.mask MessageField.inline m ∧
    Message.mask MessageField.template (MessageBuilder.template m os) = Message.mask MessageField.template m ∧
    Message.mask MessageField.template_version (MessageBuilder.template_version m os) = Message.mask MessageField.template_version m ∧
    Message.mask MessageField.template_text (MessageBuilder.template_text m ob) = Message.mask MessageField.template_text m ∧
    Message.mask MessageField.option_tag (MessageBuilder.option_tag m os) = Message.mask MessageField.option_tag m ∧
    Message.mask MessageField.option_dkim (MessageBuilder.option_dkim m os) = Message.mask MessageField.option_dkim m ∧
    Message.mask MessageField.option_deliverytime (MessageBuilder.option_deliverytime m os) = Message.mask MessageField.option_deliverytime m ∧
    Message.mask MessageField.option_testmode (MessageBuilder.option_testmode m os) = Message.mask MessageField.option_testmode m ∧
    Message.mask MessageField.option_tracking (MessageBuilder.option_tracking m os) = Message.mask MessageField.option_tracking m ∧
    Message.mask MessageField.option_tracking_clicks (MessageBuilder.option_tracking_clicks m os) = Message.mask MessageField.option_tracking_clicks m ∧
    Message.mask MessageField.option_tracking_opens (MessageBuilder.option_tracking_opens m ob) = Message.mask MessageField.option_tracking_opens m ∧
    Message.mask MessageField.option_require_tls (MessageBuilder.option_require_tls m ob) = Message.mask MessageField.option_require_tls m ∧
    Message.mask MessageField.option_skip_verification (MessageBuilder.option_skip_verification m ob) = Message.mask MessageField.option_skip_verification m ∧
    Message.mask MessageField.custom_headers (MessageBuilder.custom_headers m om) = Message.mask MessageField.custom_headers m ∧
    Message.mask MessageField.custom_data (MessageBuilder.custom_data m om) = Message.mask MessageField.custom_data m ∧
    Message.mask MessageField.recipient_variables (MessageBuilder.recipient_variables m om) = Message.mask MessageField.recipient_variables m := by
  refine ⟨rfl, rfl, ?_, ?_, rfl, rfl, rfl, rfl, ?_, ?_, rfl, rfl, rfl, rfl, rfl, rfl,
    rfl, rfl, rfl, rfl, rfl, rfl, rfl, rfl, rfl⟩
  · cases oel <;> rfl
  · cases oel <;> rfl
  · cases h : m.attachment <;> simp [MessageBuilder.attachment, h, Message.mask]
  · cases oal <;> rfl

/-- Example message for the URL-encoded naming divergence: a text body plus a
template version. -/
def msgC1 : Message :=
  { baseMessage with text := some "T", template_version := some "v1" }

/-- Claim C1 (divergence witness): on the URL-encoded path the derived
serializer emits the Rust field name template_version, not the wire name
t:version required by the field table; no t:version field appears at all. -/
theorem urlencoded_uses_rust_field_names :
    message_urlencoded msgC1 =
      Except.ok [("from", "a@x.com"), ("to", "b@x.com"), ("subject", "S"),
        ("text", "T"), ("template_version", "v1")] ∧
    (pairNames (message_urlencoded msgC1)).contains "t:version" = false ∧
    (pairNames (message_urlencoded msgC1)).contains "template_version" = true := by
  refine ⟨?_, ?_, ?_⟩ <;> rfl

/-- Part names of an as_form result (empty on failure). -/
def partNames (r : Except Error (List Part)) : List String :=
  match r with
  | Except.ok ps => ps.map Part.partName
  | Except.error _ => []

/-- Example message for the multipart html omission: an html body, a template,
and one attachment. -/
def msgC2 : Message :=
  { baseMessage with
    html := some "<h1>Hi</h1>"
    template := some "tpl"
    attachment := some (AttachmentList.mk [Attachment.mk "file1" "/tmp/a.txt"]) }

/-- Claim C2 (divergence witness): as_form at a message with html set emits no
html text part at all, and emits the file part before the template text part
rather than after all text parts. -/
theorem as_form_omits_html_part :
    msgC2.as_form jsonEncodePairs =
      Except.ok [Part.text "from" "a@x.com", Part.text "to" "b@x.com",
        Part.text "subject" "S", Part.file "file1" "/tmp/a.txt",
        Part.text "template" "tpl"] ∧
    (partNames (msgC2.as_form jsonEncodePairs)).contains "html" = false := by
  refine ⟨?_, ?_⟩ <;> rfl

/-- Example message with template_text true and require_tls false. -/
def msgC7true : Message :=
  { baseMessage with
    text := some "T"
    template_text := some true
    option_require_tls := some false }

/-- Example message with template_text false and the other two boolean options set. -/
def msgC7false : Message :=
  { baseMessage with
    text := some "T"
    template_text := some false
    option_tracking_opens := some true
    option_skip_verification := some false }

/-- Claim C7 (divergence witness): on the multipart path the rules hold
(t:text emitted as yes exactly when template_text is true, omitted when false,
and the boolean options rendered as explicit yes or no strings), but on the
URL-encoded path the same messages are serialized under the Rust field names
with true or false values: template_text true yields the pair
template_text=true and no t:text field, and option_require_tls false yields
option_require_tls=false instead of o:require-tls=no. -/
theorem template_text_and_bool_options :
    msgC7true.as_form jsonEncodePairs =
      Except.ok [Part.text "from" "a@x.com", Part.text "to" "b@x.com",
        Part.text "subject" "S", Part.text "text" "T",
        Part.text "t:text" "yes", Part.text "o:require-tls" "no"] ∧
    msgC7false.as_form jsonEncodePairs =
      Except.ok [Part.text "from" "a@x.com", Part.text "to" "b@x.com",
        Part.text "subject" "S", Part.text "text" "T",
        Part.text "o:tracking-opens" "yes", Part.text "o:skip-verification" "no"] ∧
    (partNames (msgC7false.as_form jsonEncodePairs)).contains "t:text" = false ∧
    message_urlencoded msgC7true =
      Except.ok [("from", "a@x.com"), ("to", "b@x.com"), ("subject", "S"),
        ("text", "T"), ("template_text", "true"), ("option_require_tls", "false")] ∧
    (pairNames (message_urlencoded msgC7true)).contains "t:text" = false := by
  refine ⟨?_, ?_, ?_, ?_, ?_⟩ <;> rfl

/-- Example message with a text body for the dispatcher claims. -/
def msgC4 : Message := { baseMessage with text := some "T" }

/-- Request built for msgC4 with client key and domain. -/
def reqC4 : Request :=
  { url := API_BASE_PATH ++ "/" ++ "domain" ++ "/messages"
    auth_user := "api"
    auth_password := "key"
    contentTypeHeader := none
    body := RequestBody.form (message_urlencoded msgC4) }

/-- Claim C4: a response body equal to the literal "Forbidden" classifies as
ApiForbiddenError whatever the JSON parser would say, and a send whose
transport returns that body yields ApiForbiddenError. -/
theorem forbidden_body_classification (parse : String → Option Json) :
    classifyResponse parse "Forbidden" = SendResult.err Error.ApiForbiddenError ∧
    ∀ (sj : MessageJsonData → Except String String)
      (transport : Request → Except String String) (client : Client) (m : Message)
      (req : Request),
      m.text.isNone = false →
      buildRequest sj client m = Except.ok req →
      req.body.buildError = none →
      transport req = Except.ok "Forbidden" →
      send_message_with_client sj parse transport client m =
        SendResult.err Error.ApiForbiddenError := by
  constructor
  · rfl
  · intro sj transport client m req htext hbuild herr htrans
    simp [send_message_with_client, htext, hbuild, herr, htrans, classifyResponse]

/-- Witness for claim C4 at a concrete message and transport. -/
theorem forbidden_body_classification_witness :
    classifyResponse (fun _ => none) "Forbidden" = SendResult.err Error.ApiForbiddenError ∧
    send_message_with_client (fun _ => Except.ok "") (fun _ => none)
      (fun _ => Except.ok "Forbidden") (Client.mk "key" "domain") msgC4 =
      SendResult.err Error.ApiForbiddenError :=
  ⟨(forbidden_body_classification (fun _ => none)).1,
   (forbidden_body_classification (fun _ => none)).2 _ _ _ _ reqC4 rfl rfl rfl rfl⟩

/-- Claim C5: for a non-Forbidden body, a JSON object with string fields
message and id classifies as Success with both preserved verbatim, an object
with a string message and no string id classifies as the SendMessageError
failure with the same message, an object without a string message is a decode
error, and an unparseable body is a decode error. -/
theorem response_shape_classification (parse : String → Option Json) (body : String)
    (hb : body ≠ "Forbidden") :
    (∀ j message id, parse body = some j → j.getStr "message" = some message →
      j.getStr "id" = some id →
      classifyResponse parse body = SendResult.ok (SendMessageResponse.Success message id)) ∧
    (∀ j message, parse body = some j → j.getStr "message" = some message →
      j.getStr "id" = none →
      classifyResponse parse body =
        SendResult.err (Error.SendMessageError (SendMessageResponse.Failure message))) ∧
    (∀ j, parse body = some j → j.getStr "message" = none →
      classifyResponse parse body = SendResult.err (Error.Unknown
        "data did not match any variant of untagged enum SendMessageResponse")) ∧
    (parse body = none →
      classifyResponse parse body =
        SendResult.err (Error.Unknown "invalid JSON in response body")) := by
  refine ⟨?_, ?_, ?_, ?_⟩
  · intro j message id hp hm hi
    simp [classifyResponse, hb, hp, deserializeSendMessageResponse, hm, hi]
  · intro j message hp hm hi
    simp [classifyResponse, hb, hp, deserializeSendMessageResponse, hm, hi]
  · intro j hp hm
    simp [classifyResponse, hb, hp, deserializeSendMessageResponse, hm]
  · intro hp
    simp [classifyResponse, hb, hp]

/-- Concrete parser for the claim C5 witness, mapping three fixed bodies to a
success object, a failure object, and a parse failure. -/
def parseC5 (s : String) : Option Json :=
  if s = "okbody" then
    some (Json.obj [("message", Json.str "Queued. Thank you."), ("id", Json.str "<id1>")])
  else if s = "failbody" then
    some (Json.obj [("message", Json.str "bad")])
  else
    none

/-- Witness for claim C5 at the three concrete bodies. -/
theorem response_shape_classification_witness :
    classifyResponse parseC5 "okbody" =
      SendResult.ok (SendMessageResponse.Success "Queued. Thank you." "<id1>") ∧
    classifyResponse parseC5 "failbody" =
      SendResult.err (Error.SendMessageError (SendMessageResponse.Failure "bad")) ∧
    classifyResponse parseC5 "plain" =
      SendResult.err (Error.Unknown "invalid JSON in response body") :=
  ⟨(response_shape_classification parseC5 "okbody" (by decide)).1 _
      "Queued. Thank you." "<id1>" rfl rfl rfl,
   (response_shape_classification parseC5 "failbody" (by decide)).2.1 _ "bad" rfl rfl rfl,
   (response_shape_classification parseC5 "plain" (by decide)).2.2.2 rfl⟩

/-- Example message whose inline list is present but empty. -/
def msgC6 : Message :=
  { baseMessage with text := some "T", inline := some (AttachmentList.mk []) }

/-- Whether a built request has a multipart body (false on failure). -/
def isMultipartRequest (r : Except Error Request) : Bool :=
  match r with
  | Except.ok req => req.body.isMultipart
  | Except.error _ => false

/-- Claim C6 counterexample: a message whose attachment list is unset and whose
inline list is present but empty is encoded as a multipart body, not as the
URL-encoded form the claim requires for a message whose lists are both empty or
unset. -/
theorem empty_inline_list_counterexample :
    msgC6.attachment = none ∧
    msgC6.inline = some (AttachmentList.mk []) ∧
    isMultipartRequest (buildRequest jsonEncodePairs (Client.mk "key" "domain") msgC6) = true := by
  refine ⟨rfl, rfl, ?_⟩
  rfl

/-- Membership in an optional URL-encoded pair list. -/
theorem pair_mem_optPair {x y n : String} {v : Option String} :
    (x, y) ∈ optPair n v ↔ (x = n ∧ v = some y) := by
  cases v with
  | none => simp [optPair]
  | some s =>
      simp only [optPair, List.mem_singleton, Prod.mk.injEq, Option.some.injEq]
      exact ⟨fun h => ⟨h.1, h.2.symm⟩, fun h => ⟨h.1, h.2.symm⟩⟩

/-- Claim C6 amended: the encoding selection keys on unset (None) lists, not on
emptiness: when both attachment and inline are unset the body is the single
URL-encoded form, which carries no attachment or inline field; when either
field is present, even holding an empty list, every successfully built request
has a multipart body. -/
theorem encoding_selection_rule (sj : MessageJsonData → Except String String)
    (client : Client) (m : Message) :
    (m.attachment = none → m.inline = none →
      buildRequest sj client m = Except.ok
        { url := API_BASE_PATH ++ "/" ++ client.domain ++ "/messages"
          auth_user := "api"
          auth_password := client.api_key
          contentTypeHeader := none
          body := RequestBody.form (message_urlencoded m) } ∧
      "attachment" ∉ pairNames (message_urlencoded m) ∧
      "inline" ∉ pairNames (message_urlencoded m)) ∧
    ((m.attachment.isNone && m.inline.isNone) = false →
      ∀ req, buildRequest sj client m = Except.ok req → req.body.isMultipart = true) := by
  constructor
  · intro ha hi
    refine ⟨by simp [buildRequest, ha, hi], ?_, ?_⟩
    · intro hmem
      by_cases hmaps :
        (m.custom_headers.isSome || m.custom_data.isSome || m.recipient_variables.isSome) = true
      · simp [pairNames, message_urlencoded, hmaps] at hmem
      · simp [pairNames, message_urlencoded, hmaps, ha, hi, pair_mem_optPair] at hmem
    · intro hmem
      by_cases hmaps :
        (m.custom_headers.isSome || m.custom_data.isSome || m.recipient_variables.isSome) = true
      · simp [pairNames, message_urlencoded, hmaps] at hmem
      · simp [pairNames, message_urlencoded, hmaps, ha, hi, pair_mem_optPair] at hmem
  · intro hsel req hbuild
    simp only [buildRequest, hsel] at hbuild
    cases has : m.as_form sj with
    | error e =>
        rw [has] at hbuild
        simp at hbuild
    | ok parts =>
        rw [has] at hbuild
        simp at hbuild
        rw [← hbuild]
        rfl

/-- Request built for msgC6 with client key and domain. -/
def reqC6 : Request :=
  { url := API_BASE_PATH ++ "/" ++ "domain" ++ "/messages"
    auth_user := "api"
    auth_password := "key"
    contentTypeHeader := some "multipart/form-data; boundary=<boundary>"
    body := RequestBody.multipart [Part.text "from" "a@x.com", Part.text "to" "b@x.com",
      Part.text "subject" "S", Part.text "text" "T"] }

/-- Witness for the amended claim C6 at concrete messages on both branches. -/
theorem encoding_selection_rule_witness :
    (buildRequest jsonEncodePairs (Client.mk "key" "domain") msgC4 = Except.ok
      { url := API_BASE_PATH ++ "/" ++ "domain" ++ "/messages"
        auth_user := "api"
        auth_password := "key"
        contentTypeHeader := none
        body := RequestBody.form (message_urlencoded msgC4) } ∧
      "attachment" ∉ pairNames (message_urlencoded msgC4) ∧
      "inline" ∉ pairNames (message_urlencoded msgC4)) ∧
    reqC6.body.isMultipart = true :=
  ⟨(encoding_selection_rule jsonEncodePairs (Client.mk "key" "domain") msgC4).1 rfl rfl,
   (encoding_selection_rule jsonEncodePairs (Client.mk "key" "domain") msgC6).2 rfl reqC6 rfl⟩

end MailgunSdk
